import Mathlib

/-!
Verification of the `zr` example calculator (examples/rust-cargo).

The program consists of a two-function arithmetic module over `i32` and a
command-line entry point (`src/main.rs`) that parses two integers and an
operation name with clap, dispatches to the arithmetic module, prints the
result in decimal to stdout, and exits.

Machine `i32` values are embedded as their unsigned 32-bit machine
representation, a `Nat` below `2 ^ 32`; the signed value is recovered by
two's-complement interpretation (`toInt32`).  Rust's wrapping arithmetic on
`i32` (the release-mode semantics, which is the wraparound convention the
spec fixes) is addition and multiplication of representations modulo
`2 ^ 32`.
-/

/-- Number of distinct 32-bit machine words, `2 ^ 32`. -/
def UINT32_CARD : Nat := 4294967296

/-- Two's-complement interpretation of a 32-bit machine word as a signed
integer: words below `2 ^ 31` denote themselves, the rest denote
`n - 2 ^ 32`. -/
def toInt32 (n : Nat) : Int :=
  if n < 2147483648 then (n : Int) else (n : Int) - 4294967296

/-- Machine representation of a signed integer value (reduction modulo
`2 ^ 32` into a word). -/
def ofInt32 (z : Int) : Nat := (z % 4294967296).toNat

/-- Embedding of `pub fn add(a: i32, b: i32) -> i32 { a + b }` from
`benches/calculator_bench.rs`, on machine representations with Rust's
wraparound `i32` semantics. -/
def add (a b : Nat) : Nat := (a + b) % 4294967296

/-- Embedding of `pub fn multiply(a: i32, b: i32) -> i32 { a * b }` from
`benches/calculator_bench.rs`, on machine representations with Rust's
wraparound `i32` semantics. -/
def multiply (a b : Nat) : Nat := (a * b) % 4294967296

/-- Reduction of an unbounded integer modulo `2 ^ 32` into the signed 32-bit
range `[-2 ^ 31, 2 ^ 31)`; this is the "wraparound sum/product" the spec
speaks of. -/
def wrapSigned (z : Int) : Int := (z + 2147483648) % 4294967296 - 2147483648

lemma toInt32_eq_wrapSigned (n : Nat) (h : n < UINT32_CARD) :
    toInt32 n = wrapSigned (n : Int) := by
  unfold toInt32 wrapSigned
  unfold UINT32_CARD at h
  split <;> omega

lemma wrapSigned_emod (z : Int) : wrapSigned (z % 4294967296) = wrapSigned z := by
  unfold wrapSigned
  omega

lemma wrapSigned_congr {z w : Int} (h : z % 4294967296 = w % 4294967296) :
    wrapSigned z = wrapSigned w := by
  unfold wrapSigned
  omega

lemma toInt32_emod_self (n : Nat) : toInt32 n % 4294967296 = (n : Int) % 4294967296 := by
  unfold toInt32
  split <;> omega

/-- CLAIM C1: for every pair of 32-bit words, `add` computes the
two's-complement (wraparound) sum and `multiply` the two's-complement
(wraparound) product of the signed values: the signed result is the signed
sum (resp. product) reduced modulo `2 ^ 32` into the signed 32-bit range. -/
theorem add_multiply_wraparound (a b : Nat)
    (ha : a < UINT32_CARD) (hb : b < UINT32_CARD) :
    toInt32 (add a b) = wrapSigned (toInt32 a + toInt32 b) ∧
    toInt32 (multiply a b) = wrapSigned (toInt32 a * toInt32 b) := by
  have hadd : add a b < UINT32_CARD := Nat.mod_lt _ (by decide)
  have hmul : multiply a b < UINT32_CARD := Nat.mod_lt _ (by decide)
  constructor
  · rw [toInt32_eq_wrapSigned _ hadd]
    have h1 : ((add a b : Nat) : Int) = ((a : Int) + (b : Int)) % 4294967296 := by
      unfold add
      push_cast
      ring_nf
    rw [h1, wrapSigned_emod]
    apply wrapSigned_congr
    have h2 := toInt32_emod_self a
    have h3 := toInt32_emod_self b
    omega
  · rw [toInt32_eq_wrapSigned _ hmul]
    have h1 : ((multiply a b : Nat) : Int) = ((a : Int) * (b : Int)) % 4294967296 := by
      unfold multiply
      push_cast
      ring_nf
    rw [h1, wrapSigned_emod]
    apply wrapSigned_congr
    have h2 : toInt32 a % 4294967296 = (a : Int) % 4294967296 := toInt32_emod_self a
    have h3 : toInt32 b % 4294967296 = (b : Int) % 4294967296 := toInt32_emod_self b
    exact (Int.ModEq.mul h2 h3).symm

/-- Witness for C1 at the boundary word `2 ^ 31` (the signed value
`-2 ^ 31`): the wrapping sum of `-2 ^ 31` with itself is `0` and the
wrapping product is `0`. -/
theorem add_multiply_wraparound_witness :
    (2147483648 < UINT32_CARD ∧ 2147483648 < UINT32_CARD) ∧
    (toInt32 (add 2147483648 2147483648) =
        wrapSigned (toInt32 2147483648 + toInt32 2147483648) ∧
      toInt32 (multiply 2147483648 2147483648) =
        wrapSigned (toInt32 2147483648 * toInt32 2147483648)) :=
  ⟨⟨by decide, by decide⟩,
    add_multiply_wraparound 2147483648 2147483648 (by decide) (by decide)⟩

/-!
Command-line entry point, from `src/main.rs`.

The `calculator` module that `main` dispatches into is declared by
`mod calculator;` in `src/main.rs` but its source file is not present in
the repository snapshot; its two functions are modelled from the spec
(§4.1), whose contract coincides with the identically named public
functions in `benches/calculator_bench.rs` embedded above as `add` and
`multiply`.
-/

/-- Parsed invocation configuration, from `struct Args` in `src/main.rs`:
two required `i32` operands (stored as machine words) and an operation
name defaulting to "add". -/
structure Args where
  a : Nat
  b : Nat
  operation : String
deriving DecidableEq

/-- Observable behaviour of one process run: text written to stdout, text
written to stderr, and the exit status. -/
structure Outcome where
  stdout : String
  stderr : String
  exitCode : Nat
deriving DecidableEq

/-- Embedding of the dispatch-and-print part of `fn main` in `src/main.rs`
(lines 25–35): match on the operation string; `"add"` and `"multiply"`
invoke the arithmetic module (modelled from the spec, see above) and print
the decimal result with a trailing newline via `println!`, exiting 0; any
other string prints `Unknown operation: <name>` to stderr via `eprintln!`
and exits 1.  The Rust `match` on `&str` is a chain of string equality
tests. -/
def runMain (args : Args) : Outcome :=
  if args.operation = "add" then
    { stdout := toString (toInt32 (add args.a args.b)) ++ "\n"
      stderr := ""
      exitCode := 0 }
  else if args.operation = "multiply" then
    { stdout := toString (toInt32 (multiply args.a args.b)) ++ "\n"
      stderr := ""
      exitCode := 0 }
  else
    { stdout := ""
      stderr := "Unknown operation: " ++ args.operation ++ "\n"
      exitCode := 1 }

/-- Modelled from the spec: the integer-operand parser of the external clap
parsing facility (`i32`'s string parse): an optional sign followed by at
least one decimal digit, every character a digit, and the value must fit in
the signed 32-bit range. -/
def parseDigits (cs : List Char) : Option Nat :=
  if cs = [] then none
  else if cs.all Char.isDigit then
    some (cs.foldl (fun acc c => acc * 10 + (c.toNat - 48)) 0)
  else none

/-- Modelled from the spec: parse a command-line token as an `i32` value,
returning `none` for non-integer or out-of-range input. -/
def parseI32 (s : String) : Option Int :=
  match s.data with
  | '-' :: rest =>
      (parseDigits rest).bind fun n =>
        if (n : Int) ≤ 2147483648 then some (-(n : Int)) else none
  | '+' :: rest =>
      (parseDigits rest).bind fun n =>
        if (n : Int) ≤ 2147483647 then some ((n : Int)) else none
  | cs =>
      (parseDigits cs).bind fun n =>
        if (n : Int) ≤ 2147483647 then some ((n : Int)) else none

/-- Raw option values accumulated while scanning the token list. -/
structure RawArgs where
  aVal : Option Int
  bVal : Option Int
  opVal : Option String
deriving DecidableEq

/-- Modelled from the spec: the token scan of the external clap parsing
facility over the recognized flags `-a`/`--a`, `-b`/`--b` and
`-o`/`--operation`, each taking one value; an unrecognized flag, a flag
without a value, or a non-integer operand value is a parse error. -/
def scanTokens : List String → RawArgs → Option RawArgs
  | [], acc => some acc
  | flag :: v :: rest, acc =>
      if flag = "-a" ∨ flag = "--a" then
        (parseI32 v).bind fun n => scanTokens rest { acc with aVal := some n }
      else if flag = "-b" ∨ flag = "--b" then
        (parseI32 v).bind fun n => scanTokens rest { acc with bVal := some n }
      else if flag = "-o" ∨ flag = "--operation" then
        scanTokens rest { acc with opVal := some v }
      else none
  | _ :: [], _ => none

/-- Modelled from the spec: argument parsing for `struct Args` — both
operands are required; the operation name defaults to "add" when the flag
is absent (`default_value = "add"` in `src/main.rs`).  A missing required
operand is a parse error. -/
def parseArgs (toks : List String) : Option Args :=
  (scanTokens toks ⟨none, none, none⟩).bind fun r =>
    match r.aVal, r.bVal with
    | some a, some b =>
        some { a := ofInt32 a, b := ofInt32 b, operation := r.opVal.getD "add" }
    | _, _ => none

/-- Modelled from the spec: on an argument-parsing failure the parsing
facility prints a usage diagnostic to stderr and exits with a non-zero
status (clap uses status 2), writing nothing to stdout and performing no
computation. -/
def clapErrorOutcome : Outcome :=
  { stdout := "", stderr := "error: invalid or missing arguments\n", exitCode := 2 }

/-- Whole-process behaviour: parse the token list; on failure produce the
parsing facility's fixed error outcome, on success run the dispatch. -/
def runProgram (toks : List String) : Outcome :=
  match parseArgs toks with
  | none => clapErrorOutcome
  | some args => runMain args

/-- CLAIM C2: for any operation name other than exactly "add" or exactly
"multiply", the dispatch writes a diagnostic identifying the unknown
operation to stderr, writes nothing to stdout, and exits with status 1. -/
theorem main_unknown_operation (args : Args)
    (h1 : args.operation ≠ "add") (h2 : args.operation ≠ "multiply") :
    runMain args =
      { stdout := ""
        stderr := "Unknown operation: " ++ args.operation ++ "\n"
        exitCode := 1 } := by
  simp [runMain, h1, h2]

/-- Witness for C2 at the spec's example `a=1, b=1, operation=subtract`:
no stdout output, the diagnostic on stderr, exit code 1. -/
theorem main_unknown_operation_witness :
    runMain ⟨1, 1, "subtract"⟩ =
      { stdout := ""
        stderr := "Unknown operation: " ++ "subtract" ++ "\n"
        exitCode := 1 } :=
  main_unknown_operation ⟨1, 1, "subtract"⟩ (by decide) (by decide)

/-- CLAIM C3: for every pair of operands with a recognized operation name
("add" or "multiply"), the program writes the decimal representation of the
computed result to stdout followed by a newline, writes nothing to stderr,
and exits with status 0. -/
theorem main_recognized_prints_result (args : Args) :
    (args.operation = "add" →
      runMain args =
        { stdout := toString (toInt32 (add args.a args.b)) ++ "\n"
          stderr := ""
          exitCode := 0 }) ∧
    (args.operation = "multiply" →
      runMain args =
        { stdout := toString (toInt32 (multiply args.a args.b)) ++ "\n"
          stderr := ""
          exitCode := 0 }) := by
  constructor <;> intro h <;> simp [runMain, h]

/-- Witness for C3 at `a=2, b=3, operation=add`. -/
theorem main_recognized_prints_result_witness :
    runMain ⟨2, 3, "add"⟩ =
      { stdout := toString (toInt32 (add 2 3)) ++ "\n"
        stderr := ""
        exitCode := 0 } :=
  (main_recognized_prints_result ⟨2, 3, "add"⟩).1 rfl

/-- CLAIM C4: with no operation flag the operation defaults to "add", and
invoking with first operand 2 and second operand 3 and no operation flag
prints `5`. -/
theorem default_operation_is_add :
    parseArgs ["-a", "2", "-b", "3"] = some ⟨2, 3, "add"⟩ ∧
    runProgram ["-a", "2", "-b", "3"] =
      { stdout := "5" ++ "\n", stderr := "", exitCode := 0 } := by
  constructor <;> rfl

/-- CLAIM C5: invoking with first operand 2, second operand 3 and operation
name "multiply" prints `6`. -/
theorem explicit_multiply_output :
    runProgram ["-a", "2", "-b", "3", "-o", "multiply"] =
      { stdout := "6" ++ "\n", stderr := "", exitCode := 0 } ∧
    runMain ⟨2, 3, "multiply"⟩ =
      { stdout := "6" ++ "\n", stderr := "", exitCode := 0 } := by
  constructor <;> rfl

/-- CLAIM C6: `add` and `multiply` are commutative on machine words (hence
on the signed values they represent). -/
theorem add_multiply_comm (a b : Nat) :
    add a b = add b a ∧ multiply a b = multiply b a := by
  constructor
  · unfold add
    rw [Nat.add_comm]
  · unfold multiply
    rw [Nat.mul_comm]

/-- CLAIM C7: `add` and `multiply` are total functions yielding for every
pair of inputs a representable 32-bit word — no error branch exists, the
only representable-range behaviour being the wraparound reduction. -/
theorem add_multiply_total (a b : Nat) :
    add a b < UINT32_CARD ∧ multiply a b < UINT32_CARD := by
  unfold add multiply UINT32_CARD
  exact ⟨Nat.mod_lt _ (by decide), Nat.mod_lt _ (by decide)⟩

/-- CLAIM C8: when argument parsing fails (a required operand missing or a
supplied operand not an integer), the process produces the parsing
facility's fixed error outcome: nothing on stdout, a non-zero exit status,
and no dispatch into the arithmetic module. -/
theorem parse_failure_no_output (toks : List String)
    (h : parseArgs toks = none) :
    runProgram toks = clapErrorOutcome ∧
    (runProgram toks).stdout = "" ∧ (runProgram toks).exitCode ≠ 0 := by
  simp [runProgram, h, clapErrorOutcome]

/-- Witness for C8: omitting the required operand `b` is a parse failure
and yields the error outcome. -/
theorem parse_failure_no_output_witness :
    parseArgs ["-a", "1"] = none ∧
    (runProgram ["-a", "1"] = clapErrorOutcome ∧
      (runProgram ["-a", "1"]).stdout = "" ∧
      (runProgram ["-a", "1"]).exitCode ≠ 0) :=
  ⟨by decide, parse_failure_no_output ["-a", "1"] (by decide)⟩

/-- CLAIM C9: operation-name matching in the dispatch is exact and
case-sensitive: every string that differs in any way — in case, in
whitespace, or otherwise — from exactly "add" and exactly "multiply" is
treated as an unknown operation, producing no stdout output, the
unknown-operation diagnostic on stderr, and exit status 1. -/
theorem dispatch_exact_case_sensitive (args : Args)
    (h1 : args.operation ≠ "add") (h2 : args.operation ≠ "multiply") :
    (runMain args).stdout = "" ∧
    (runMain args).stderr = "Unknown operation: " ++ args.operation ++ "\n" ∧
    (runMain args).exitCode = 1 := by
  simp [runMain, h1, h2]

/-- Witness for C9 at the case and whitespace variants "Add", "ADD",
"Multiply" and "add " (trailing space): each is an unknown operation with
no stdout output and exit status 1. -/
theorem dispatch_exact_case_sensitive_witness :
    ((runMain ⟨1, 1, "Add"⟩).stdout = "" ∧
      (runMain ⟨1, 1, "Add"⟩).stderr = "Unknown operation: " ++ "Add" ++ "\n" ∧
      (runMain ⟨1, 1, "Add"⟩).exitCode = 1) ∧
    ((runMain ⟨1, 1, "ADD"⟩).stdout = "" ∧
      (runMain ⟨1, 1, "ADD"⟩).stderr = "Unknown operation: " ++ "ADD" ++ "\n" ∧
      (runMain ⟨1, 1, "ADD"⟩).exitCode = 1) ∧
    ((runMain ⟨1, 1, "Multiply"⟩).stdout = "" ∧
      (runMain ⟨1, 1, "Multiply"⟩).stderr =
        "Unknown operation: " ++ "Multiply" ++ "\n" ∧
      (runMain ⟨1, 1, "Multiply"⟩).exitCode = 1) ∧
    ((runMain ⟨1, 1, "add "⟩).stdout = "" ∧
      (runMain ⟨1, 1, "add "⟩).stderr = "Unknown operation: " ++ "add " ++ "\n" ∧
      (runMain ⟨1, 1, "add "⟩).exitCode = 1) :=
  ⟨dispatch_exact_case_sensitive ⟨1, 1, "Add"⟩ (by decide) (by decide),
    dispatch_exact_case_sensitive ⟨1, 1, "ADD"⟩ (by decide) (by decide),
    dispatch_exact_case_sensitive ⟨1, 1, "Multiply"⟩ (by decide) (by decide),
    dispatch_exact_case_sensitive ⟨1, 1, "add "⟩ (by decide) (by decide)⟩

/-- CLAIM C10: the program is deterministic — two parsed invocation
configurations agreeing on both operands and the operation name produce
identical observable outcomes (stdout text and exit status alike). -/
theorem run_main_deterministic (x y : Args)
    (h1 : x.a = y.a) (h2 : x.b = y.b) (h3 : x.operation = y.operation) :
    runMain x = runMain y := by
  cases x
  cases y
  simp only at h1 h2 h3
  subst h1
  subst h2
  subst h3
  rfl

/-- Witness for C10 at two identical configurations. -/
theorem run_main_deterministic_witness :
    runMain ⟨2, 3, "add"⟩ = runMain ⟨2, 3, "add"⟩ :=
  run_main_deterministic ⟨2, 3, "add"⟩ ⟨2, 3, "add"⟩ rfl rfl rfl
